import Mathlib

/-!
Verification of the routing layer in `src/token-scanner-api/src/server/routes.py`.

The file under verification is a FastAPI routing shim with four handlers:
`get_notes` (GET /), `get_token_balance` (GET /balance/{address}),
`get_top_holders` (GET /top) and `get_holder_weekly_change`
(GET /weekly/{address}).  Each query handler wraps a single collaborator
call in a one-element `asyncio.gather`, then branches on the truthiness of
the gathered list.

The embedding below models Python JSON-like values as `PyVal`, Python
truthiness as `truthy`, and an awaited collaborator call as a value of
`Except String PyVal` (an `Except.error e` models the collaborator raising
an exception with message `e`; `asyncio.gather` with
`return_exceptions=False` propagates the first exception, which `gatherE`
mirrors).  Each handler is a function of the awaited collaborator result,
since the collaborator (`src.server.database`) is external to the file.
-/

namespace TokenScanner

/-- JSON-like Python values as they appear in the handlers: `None`, strings,
integers, lists and string-keyed dictionaries. -/
inductive PyVal : Type where
  | none : PyVal
  | str : String → PyVal
  | int : Int → PyVal
  | list : List PyVal → PyVal
  | dict : List (String × PyVal) → PyVal

/-- Python truthiness: `None` is falsy, a string/list/dict is truthy iff
non-empty, an integer is truthy iff non-zero. -/
def truthy : PyVal → Bool
  | PyVal.none => false
  | PyVal.str s => !s.isEmpty
  | PyVal.int n => n != 0
  | PyVal.list xs => !xs.isEmpty
  | PyVal.dict kvs => !kvs.isEmpty

/-- `await asyncio.gather(*futures)` with the default
`return_exceptions=False`: the first raised exception propagates; otherwise
the list of the futures' results is returned in order. -/
def gatherE : List (Except String PyVal) → Except String (List PyVal)
  | [] => Except.ok []
  | f :: fs =>
    match f with
    | Except.error e => Except.error e
    | Except.ok v =>
      match gatherE fs with
      | Except.error e => Except.error e
      | Except.ok vs => Except.ok (v :: vs)

/-- `get_notes` (GET /): returns a static status payload; no failure mode. -/
def get_notes : PyVal :=
  PyVal.dict [("message", PyVal.str "🪙 Token indexer server is up and running!")]

/-- `get_token_balance` (GET /balance/{address}):
`futures = [retrieve_balance(address)]; result = await asyncio.gather(*futures)`,
then `if result:` returns `{"result": result}` else `{"error": "wallet not found"}`.
The argument is the awaited outcome of `retrieve_balance(address)`. -/
def get_token_balance (balanceCall : Except String PyVal) : Except String PyVal :=
  match gatherE [balanceCall] with
  | Except.error e => Except.error e
  | Except.ok result =>
    if truthy (PyVal.list result) then
      Except.ok (PyVal.dict [("result", PyVal.list result)])
    else
      Except.ok (PyVal.dict [("error", PyVal.str "wallet not found")])

/-- `get_top_holders` (GET /top): same shaping over
`retrieve_top_balances()`, error message `"No holders found"`. -/
def get_top_holders (topBalancesCall : Except String PyVal) : Except String PyVal :=
  match gatherE [topBalancesCall] with
  | Except.error e => Except.error e
  | Except.ok result =>
    if truthy (PyVal.list result) then
      Except.ok (PyVal.dict [("result", PyVal.list result)])
    else
      Except.ok (PyVal.dict [("error", PyVal.str "No holders found")])

/-- `get_holder_weekly_change` (GET /weekly/{address}): declares an extra
`env_vars: dict` parameter that the body never uses, then applies the same
shaping over `retrieve_holder_weekly_change(address)`, error message
`"wallet not found"`. -/
def get_holder_weekly_change (env_vars : PyVal) (weeklyChangeCall : Except String PyVal) :
    Except String PyVal :=
  match gatherE [weeklyChangeCall] with
  | Except.error e => Except.error e
  | Except.ok result =>
    if truthy (PyVal.list result) then
      Except.ok (PyVal.dict [("result", PyVal.list result)])
    else
      Except.ok (PyVal.dict [("error", PyVal.str "wallet not found")])

/-- Plain-await variant of `get_token_balance`, modelled from the spec's
words (§9): "a plain single-call await" that "wraps the returned value in a
one-element list", with the same truthiness branch; used only to compare
against the gather-based handler. -/
def get_token_balance_plain (balanceCall : Except String PyVal) : Except String PyVal :=
  match balanceCall with
  | Except.error e => Except.error e
  | Except.ok v =>
    let result := [v]
    if truthy (PyVal.list result) then
      Except.ok (PyVal.dict [("result", PyVal.list result)])
    else
      Except.ok (PyVal.dict [("error", PyVal.str "wallet not found")])

/-- Plain-await variant of `get_top_holders`, modelled from the spec's words
(§9), for comparison with the gather-based handler. -/
def get_top_holders_plain (topBalancesCall : Except String PyVal) : Except String PyVal :=
  match topBalancesCall with
  | Except.error e => Except.error e
  | Except.ok v =>
    let result := [v]
    if truthy (PyVal.list result) then
      Except.ok (PyVal.dict [("result", PyVal.list result)])
    else
      Except.ok (PyVal.dict [("error", PyVal.str "No holders found")])

/-- Plain-await variant of `get_holder_weekly_change`, modelled from the
spec's words (§9), for comparison with the gather-based handler. -/
def get_holder_weekly_change_plain (env_vars : PyVal) (weeklyChangeCall : Except String PyVal) :
    Except String PyVal :=
  match weeklyChangeCall with
  | Except.error e => Except.error e
  | Except.ok v =>
    let result := [v]
    if truthy (PyVal.list result) then
      Except.ok (PyVal.dict [("result", PyVal.list result)])
    else
      Except.ok (PyVal.dict [("error", PyVal.str "wallet not found")])

/-- Observation: the outcome is a normal return of a one-key dictionary
whose single key is `"result"` (the success envelope). -/
def isResultEnvelope : Except String PyVal → Bool
  | Except.ok (PyVal.dict [(k, _)]) => k == "result"
  | _ => false

/-- Observation: the outcome is a normal return of a one-key dictionary
whose single key is `"error"` (the error envelope). -/
def isErrorEnvelope : Except String PyVal → Bool
  | Except.ok (PyVal.dict [(k, _)]) => k == "error"
  | _ => false

/-- Observation: a normally returned body is a dictionary with exactly one
key, and that key is `"message"`, `"result"` or `"error"`. -/
def normalShapeOk : PyVal → Bool
  | PyVal.dict [(k, _)] => k == "message" || k == "result" || k == "error"
  | _ => false

/-- Observation: either the handler raised (no JSON envelope), or the
normally returned body satisfies `normalShapeOk`. -/
def responseShapeOk : Except String PyVal → Bool
  | Except.error _ => true
  | Except.ok d => normalShapeOk d

/-- Claim C1: for every collaborator return value of
`retrieve_balance(address)`, including a null/empty value, the
GET /balance/\x7baddress\x7d handler returns the success envelope and never
the error envelope, because the gathered one-element list is always
non-empty and therefore truthy. -/
theorem get_token_balance_always_success_envelope (v : PyVal) :
    isResultEnvelope (get_token_balance (Except.ok v)) = true ∧
    isErrorEnvelope (get_token_balance (Except.ok v)) = false := by
  constructor <;> rfl

/-- Claim C2 (evaluation at the failing input): when the collaborator
reports an address as absent by returning `None`, the handler still takes
the success branch and returns the success envelope wrapping `[None]`,
not the error envelope `«error: wallet not found»` that the spec intends. -/
theorem get_token_balance_absent_value_success :
    get_token_balance (Except.ok PyVal.none) =
      Except.ok (PyVal.dict [("result", PyVal.list [PyVal.none])]) := rfl

/-- Claim C3: the GET /weekly/\x7baddress\x7d handler's response does not
depend on the `env_vars` parameter: given the same collaborator result,
any two values of `env_vars` yield the same response. -/
theorem get_holder_weekly_change_ignores_env_vars
    (env1 env2 : PyVal) (r : Except String PyVal) :
    get_holder_weekly_change env1 r = get_holder_weekly_change env2 r := rfl

/-- Claim C4: GET / always returns the static payload
`«message: 🪙 Token indexer server is up and running!»`; the handler takes
no input and has no failure mode. -/
theorem get_notes_static :
    get_notes = PyVal.dict
      [("message", PyVal.str "🪙 Token indexer server is up and running!")] := rfl

/-- Claim C5: for every value the collaborator returns,
GET /balance/\x7baddress\x7d returns the success body wrapping exactly that
value in a one-element list, passed through unchanged. -/
theorem get_token_balance_wraps_value (v : PyVal) :
    get_token_balance (Except.ok v) =
      Except.ok (PyVal.dict [("result", PyVal.list [v])]) := rfl

/-- Claim C6: for every holder list returned by `retrieve_top_balances()`,
the GET /top success body contains that list exactly as provided, in the
collaborator's order, with no re-sorting or other modification. -/
theorem get_top_holders_preserves_order (holders : List PyVal) :
    get_top_holders (Except.ok (PyVal.list holders)) =
      Except.ok (PyVal.dict [("result", PyVal.list [PyVal.list holders])]) := rfl

/-- Claim C7: each query handler is observably equivalent to the
plain-await variant that performs a single await of the collaborator call
and wraps the returned value in a one-element list: the single-element
gather adds no behaviour, on exceptional outcomes as well as on values. -/
theorem handlers_equiv_plain_await (r : Except String PyVal) (env : PyVal) :
    get_token_balance r = get_token_balance_plain r ∧
    get_top_holders r = get_top_holders_plain r ∧
    get_holder_weekly_change env r = get_holder_weekly_change_plain env r := by
  cases r <;> exact ⟨rfl, rfl, rfl⟩

/-- Claim C8: no handler catches collaborator exceptions: if the
collaborator call raises, each query handler re-raises the same exception
and returns no JSON envelope. -/
theorem handlers_propagate_exceptions (e : String) (env : PyVal) :
    get_token_balance (Except.error e) = Except.error e ∧
    get_top_holders (Except.error e) = Except.error e ∧
    get_holder_weekly_change env (Except.error e) = Except.error e :=
  ⟨rfl, rfl, rfl⟩

/-- Claim C9: every response any of the four handlers returns normally is a
dictionary with exactly one key, that key being `"message"`, `"result"` or
`"error"`; exceptional outcomes return no body at all. -/
theorem handlers_envelope_shape (r : Except String PyVal) (env : PyVal) :
    normalShapeOk get_notes = true ∧
    responseShapeOk (get_token_balance r) = true ∧
    responseShapeOk (get_top_holders r) = true ∧
    responseShapeOk (get_holder_weekly_change env r) = true := by
  refine ⟨rfl, ?_, ?_, ?_⟩ <;> cases r <;> rfl

/-- Claim C10: the GET /top and GET /weekly/\x7baddress\x7d handlers also
never return their error envelopes: for every collaborator return value,
including an empty holder list or a null change, the gathered one-element
list is truthy and the success branch is taken. -/
theorem top_and_weekly_never_error (v : PyVal) (env : PyVal) :
    isErrorEnvelope (get_top_holders (Except.ok v)) = false ∧
    isResultEnvelope (get_top_holders (Except.ok v)) = true ∧
    isErrorEnvelope (get_holder_weekly_change env (Except.ok v)) = false ∧
    isResultEnvelope (get_holder_weekly_change env (Except.ok v)) = true :=
  ⟨rfl, rfl, rfl, rfl⟩

end TokenScanner
